import Mathlib

/-!
Verification of the go-disaster-alerts ingestion-and-fan-out pipeline.

The definitions below are a shallow embedding of the Go sources:
machine floats that are only ever compared (magnitudes) become `Rat`,
timestamps become `Int` (unix instants), channels become explicit lists,
and the stateful pipeline becomes explicit state passing.
-/

namespace DisasterAlerts

/-- Disaster categories. Mirrors `models.DisasterType` (internal/models/disaster.go)
together with the generated proto enum's extra `UNSPECIFIED` sentinel used by
the gRPC request types. -/
inductive DisasterType where
  | unspecified
  | earthquake
  | flood
  | cyclone
  | tsunami
  | volcano
  | wildfire
  | drought
  | unknown
deriving DecidableEq, Repr

/-- Alert levels. Mirrors the generated proto enum `disastersv1.AlertLevel`
(values UNKNOWN=0 < GREEN=1 < ORANGE=2 < RED=3, the ordering the code relies on
in `StreamDisasters` and that `TestSQLiteDB_ListDisasters_AlertLevelFilters`
pins down: MinAlertLevel ORANGE matches ORANGE and RED). -/
inductive AlertLevel where
  | unknown
  | green
  | orange
  | red
deriving DecidableEq, Repr

/-- Numeric value of the proto enum constant. -/
def AlertLevel.toNat : AlertLevel → Nat
  | .unknown => 0
  | .green => 1
  | .orange => 2
  | .red => 3

instance : LE AlertLevel := ⟨fun a b => a.toNat ≤ b.toNat⟩

instance : LT AlertLevel := ⟨fun a b => a.toNat < b.toNat⟩

instance (a b : AlertLevel) : Decidable (a ≤ b) :=
  inferInstanceAs (Decidable (a.toNat ≤ b.toNat))

instance (a b : AlertLevel) : Decidable (a < b) :=
  inferInstanceAs (Decidable (a.toNat < b.toNat))

/-- The canonical event record, `models.Disaster`. Float fields (`Magnitude`,
`Latitude`, `Longitude`) are only ever compared by the pipeline, never computed
with, so they are embedded as `Rat`; `Timestamp` is the unix instant. -/
structure Disaster where
  id : String
  source : String
  type : DisasterType
  title : String
  description : String
  magnitude : Rat
  alertLevel : AlertLevel
  latitude : Rat
  longitude : Rat
  timestamp : Int
deriving DecidableEq, Repr

/-- `repo.Exists` over an in-memory store: is some persisted record keyed by
this id? (sqlite.go `SELECT EXISTS(SELECT 1 FROM disasters WHERE id = ?)`). -/
def existsInStore (store : List Disaster) (id : String) : Bool :=
  store.any (fun r => r.id == id)

/-- `shouldBroadcast` (internal/ingestion/manager.go): earthquakes qualify at
magnitude >= 5.0, every other category qualifies at alert level orange or red. -/
def shouldBroadcast (d : Disaster) : Bool :=
  if d.type = DisasterType.earthquake then
    decide ((5 : Rat) ≤ d.magnitude)
  else
    decide (d.alertLevel = AlertLevel.orange ∨ d.alertLevel = AlertLevel.red)

/-- Pipeline state seen by one worker: the persisted records (in insertion
order) and the sequence of records published to the Broadcaster. -/
structure PipelineState where
  store : List Disaster
  broadcasts : List Disaster
deriving DecidableEq, Repr

/-- The worker-pool processor closure from `Manager.Start`
(internal/ingestion/manager.go, the version with the idempotency re-check):
re-check existence, return untouched if present; otherwise persist via
`repo.Add` (an insert of an absent key succeeds) and publish to the
Broadcaster exactly when `shouldBroadcast` holds. -/
def processJob (st : PipelineState) (d : Disaster) : PipelineState :=
  if existsInStore st.store d.id then st
  else
    { store := st.store ++ [d]
      broadcasts := if shouldBroadcast d then st.broadcasts ++ [d] else st.broadcasts }

/-- The optional filter fields of a `StreamDisastersRequest`
(gRPC `StreamDisasters`, internal/grpc/broadcaster.go). -/
structure StreamFilter where
  type : Option DisasterType := none
  minMagnitude : Option Rat := none
  alertLevel : Option AlertLevel := none
  minAlertLevel : Option AlertLevel := none
deriving DecidableEq, Repr

/-- The filter checks applied to one record received from the inbox in
`Server.StreamDisasters`: each of the four `continue` guards, as a
conjunction. A set `type` equal to the proto `UNSPECIFIED` sentinel and a set
alert level equal to `UNKNOWN` are ignored, exactly as in the code. -/
def passesFilter (req : StreamFilter) (d : Disaster) : Bool :=
  (match req.type with
    | some t => if t ≠ DisasterType.unspecified then decide (d.type = t) else true
    | none => true)
  && (match req.minMagnitude with
    | some m => !decide (d.magnitude < m)
    | none => true)
  && (match req.alertLevel with
    | some a => if a ≠ AlertLevel.unknown then decide (d.alertLevel = a) else true
    | none => true)
  && (match req.minAlertLevel with
    | some a => if a ≠ AlertLevel.unknown then !decide (d.alertLevel < a) else true
    | none => true)

/-- The `ACTIVE` loop of one streaming session over the finite sequence of
records its inbox will deliver: a record failing the filter is discarded and
the loop continues with the rest; a passing record is sent downstream. The
output is the sequence of records delivered to the subscriber. -/
def streamSession (req : StreamFilter) : List Disaster → List Disaster
  | [] => []
  | d :: rest =>
    if passesFilter req d then d :: streamSession req rest
    else streamSession req rest

/-- One subscriber entry of the Broadcaster's registry: the opaque handle,
the inbox contents (a Go channel's buffered elements, oldest first) and the
inbox capacity (100 in `Broadcaster.Subscribe`). -/
structure Subscriber where
  id : Nat
  inbox : List Disaster
  capacity : Nat
deriving DecidableEq, Repr

/-- The non-blocking send `select { case ch <- d: default: }` from
`Broadcaster.Broadcast`: append when the buffer has spare capacity, otherwise
drop the record for this subscriber. -/
def trySend (s : Subscriber) (d : Disaster) : Subscriber :=
  if s.inbox.length < s.capacity then { s with inbox := s.inbox ++ [d] } else s

/-- The Broadcaster's state: the subscriber registry plus the sequence of
channel-close events performed so far (each `close(ch)` appends the closed
handle; closing a Go channel twice would panic, so the model records every
close). -/
structure Broadcaster where
  subscribers : List Subscriber
  nextID : Nat
  closes : List Nat
deriving DecidableEq, Repr

/-- `Broadcaster.Broadcast`: a non-blocking send to every registered inbox. -/
def Broadcaster.broadcast (b : Broadcaster) (d : Disaster) : Broadcaster :=
  { b with subscribers := b.subscribers.map (fun s => trySend s d) }

/-- Broadcasting a sequence of records one after the other. -/
def Broadcaster.broadcastAll (b : Broadcaster) (ds : List Disaster) : Broadcaster :=
  ds.foldl Broadcaster.broadcast b

/-- `Broadcaster.Unsubscribe`: when the handle is registered, close its inbox
and remove it; otherwise do nothing. -/
def Broadcaster.unsubscribe (b : Broadcaster) (id : Nat) : Broadcaster :=
  if b.subscribers.any (fun s => s.id == id) then
    { b with
      subscribers := b.subscribers.filter (fun s => s.id ≠ id)
      closes := b.closes ++ [id] }
  else b

/-- Outcome of one `Manager.poll` retry loop (the retry-loop version of
`Manager.poll`, internal/ingestion/manager.go): how many fetch attempts ran,
the backoff waits entered (in seconds, in order), whether a fetch succeeded,
and whether the loop returned early because the shutdown signal fired during a
backoff wait. -/
structure PollResult where
  attempts : Nat
  waits : List Nat
  success : Bool
  aborted : Bool
deriving DecidableEq, Repr

/-- The body of the `for attempt := 0; attempt < 5; attempt++` retry loop.
`fetch k` tells whether fetch attempt `k` succeeds; `shutdown k` tells whether
the shutdown signal fires during the backoff wait after attempt `k`. The
backoff entered after a failed attempt `k < 4` is `1<<k` seconds. `fuel` is
the number of loop iterations still allowed (5 at entry). -/
def pollGo (fetch shutdown : Nat → Bool) : Nat → Nat → PollResult
  | _, 0 => { attempts := 0, waits := [], success := false, aborted := false }
  | attempt, fuel + 1 =>
    if fetch attempt then
      { attempts := 1, waits := [], success := true, aborted := false }
    else if attempt < 4 then
      let w := 2 ^ attempt
      if shutdown attempt then
        { attempts := 1, waits := [w], success := false, aborted := true }
      else
        let r := pollGo fetch shutdown (attempt + 1) fuel
        { attempts := r.attempts + 1, waits := w :: r.waits
          success := r.success, aborted := r.aborted }
    else
      { attempts := 1, waits := [], success := false, aborted := false }

/-- The whole retry loop of `Manager.poll`: up to 5 attempts starting at 0. -/
def pollRetry (fetch shutdown : Nat → Bool) : PollResult :=
  pollGo fetch shutdown 0 5

/-- The rest of `Manager.poll` after the retry loop: on overall failure (or an
early shutdown return) nothing is submitted; on success each fetched record
goes through the dedup gate (`repo.Exists`) and only absent ones are submitted
to the worker pool. Returns the submitted records in feed order. -/
def pollSubmits (fetch shutdown : Nat → Bool) (fetched : List Disaster)
    (store : List Disaster) : List Disaster :=
  let r := pollRetry fetch shutdown
  if r.success then fetched.filter (fun d => !existsInStore store d.id)
  else []

/-- The query filter `repository.Filter` (internal/repository/repository.go,
the proto-era version): all fields the callers can set. -/
structure Filter where
  limit : Int := 0
  offset : Int := 0
  since : Option Int := none
  type : Option DisasterType := none
  minMagnitude : Option Rat := none
  alertLevel : Option AlertLevel := none
  minAlertLevel : Option AlertLevel := none
deriving DecidableEq, Repr

/-- Insert into a list kept newest-first by timestamp (the effect of SQL
`ORDER BY timestamp DESC`). -/
def insertNewestFirst (d : Disaster) : List Disaster → List Disaster
  | [] => [d]
  | x :: xs =>
    if x.timestamp ≤ d.timestamp then d :: x :: xs
    else x :: insertNewestFirst d xs

/-- Sort a store newest-first by timestamp. -/
def sortNewestFirst (store : List Disaster) : List Disaster :=
  store.foldr insertNewestFirst []

/-- `SQLiteDB.ListDisasters` (internal/repository/sqlite.go): the SQL query it
builds adds WHERE conditions only for `opts.Type` and `opts.Since`, orders by
timestamp descending, and applies LIMIT/OFFSET only when positive. The
`MinMagnitude`, `AlertLevel` and `MinAlertLevel` filter fields are never read. -/
def listDisasters (store : List Disaster) (opts : Filter) : List Disaster :=
  let matched := store.filter (fun d =>
    (match opts.type with
      | some t => d.type == t
      | none => true)
    && (match opts.since with
      | some s => decide (s ≤ d.timestamp)
      | none => true))
  let ordered := sortNewestFirst matched
  let afterOffset := if opts.offset > 0 then ordered.drop opts.offset.toNat else ordered
  if opts.limit > 0 then afterOffset.take opts.limit.toNat else afterOffset

/-- One acknowledgement-ledger row: a persisted record id and its `delivered`
(`discord_sent`) flag. -/
structure LedgerRow where
  id : String
  delivered : Bool
deriving DecidableEq, Repr

/-- Modelled from the spec: the `SQLiteDB.MarkAsSent` implementation (the
UPDATE that sets `discord_sent`) is not among the sources; only the
`DisasterRepository.MarkAsSent` interface declaration and
`TestSQLiteDB_MarkAsSent` are. Per spec section 4.6, `mark_delivered`
transitions each named record's flag false→true and returns the count of rows
actually transitioned; unknown ids and already-delivered ids contribute 0. -/
def markAsSent (store : List LedgerRow) (ids : List String) : List LedgerRow × Nat :=
  match store with
  | [] => ([], 0)
  | r :: rest =>
    let p := markAsSent rest ids
    if ids.contains r.id && !r.delivered then
      ({ r with delivered := true } :: p.1, p.2 + 1)
    else (r :: p.1, p.2)

/-- `Server.AcknowledgeDisasters` (internal/grpc/broadcaster.go): an empty id
set answers count 0 without touching the repository; otherwise the repository's
`MarkAsSent` count is returned. -/
def acknowledgeDisasters (store : List LedgerRow) (ids : List String) :
    List LedgerRow × Nat :=
  if ids.length = 0 then (store, 0) else markAsSent store ids

/-- A GDACS RSS `<item>` as decoded in internal/ingestion/gdacs.go: the XML
decoder already yields numeric `lat`/`lon`/`severity` there. The older
pollGDACS (the string-era version) instead reads `point` ("lat lon") and a
textual severity, so both text and numeric forms are carried here and each
version reads its own fields. -/
structure GdacsItem where
  title : String
  description : String
  pubDate : String
  point : String
  eventType : String
  alertLevelText : String
  eventID : String
  severityText : String
  lat : Rat
  lon : Rat
  severity : Rat
deriving DecidableEq, Repr

/-- `mapGDACSEventType` (internal/ingestion/gdacs.go, current version: no "DR"
case). -/
def mapGDACSEventType (eventType : String) : DisasterType :=
  match eventType.toUpper with
  | "EQ" => DisasterType.earthquake
  | "TC" => DisasterType.cyclone
  | "FL" => DisasterType.flood
  | "VO" => DisasterType.volcano
  | "TS" => DisasterType.tsunami
  | "WF" => DisasterType.wildfire
  | _ => DisasterType.unknown

/-- Go `strings.Fields`: split on whitespace runs, dropping empty pieces. -/
def goFields (s : String) : List String :=
  (s.split (fun c => c.isWhitespace)).filter (fun p => p ≠ "")

/-- First field that parses as a number after trimming trailing `M`/`,`
characters; `parseNum` stands for Go's `strconv.ParseFloat`. -/
def firstParsedField (parseNum : String → Option Rat) : List String → Rat
  | [] => 0
  | p :: rest =>
    let p' := p.dropRightWhile (fun c => c = 'M' || c = ',')
    match parseNum p' with
    | some m => m
    | none => firstParsedField parseNum rest

/-- `parseSeverity` (older gdacs.go): extract a magnitude from strings such as
"Magnitude 5.6M, Depth:56.4km"; 0 when nothing parses. -/
def parseSeverity (parseNum : String → Option Rat) (severity : String) : Rat :=
  let s := if severity.startsWith "Magnitude " then severity.drop 10 else severity
  firstParsedField parseNum (goFields s)

/-- The record `pollGDACS` (internal/ingestion/gdacs.go, current version)
builds from one item: a timestamp that fails `time.Parse` (modelled by the
`parseTime` oracle) leaves the Go zero value, here 0. -/
def gdacsDisaster (parseTime : String → Option Int) (item : GdacsItem) : Disaster :=
  { id := "gdacs_" ++ item.eventID
    source := "gdacs"
    type := mapGDACSEventType item.eventType
    title := item.title
    description := item.description
    magnitude := item.severity
    alertLevel := AlertLevel.unknown
    latitude := item.lat
    longitude := item.lon
    timestamp := (parseTime item.pubDate).getD 0 }

/-- The per-item normalization loop of `pollGDACS` (current version): every
item becomes a record; a failed timestamp parse only logs a warning, the
record is still appended. Returns the records in feed order together with the
event ids warned about. -/
def normalizeGDACS (parseTime : String → Option Int) :
    List GdacsItem → List Disaster × List String
  | [] => ([], [])
  | item :: rest =>
    let p := normalizeGDACS parseTime rest
    (gdacsDisaster parseTime item :: p.1,
      if (parseTime item.pubDate).isNone then item.eventID :: p.2 else p.2)

/-- The record the older `pollGDACS` (string-era version) builds from one
item: lat/lon come from the `point` field when it has at least two
whitespace-separated parts (a parse failure leaves 0, as Go's ignored
`ParseFloat` error does) and the magnitude from `parseSeverity`. -/
def gdacsDisasterOld (parseTime : String → Option Int)
    (parseNum : String → Option Rat) (item : GdacsItem) : Disaster :=
  let parts := goFields item.point
  { id := "gdacs_" ++ item.eventID
    source := "GDACS"
    type := mapGDACSEventType item.eventType
    title := item.title
    description := item.description
    magnitude := parseSeverity parseNum item.severityText
    alertLevel := AlertLevel.unknown
    latitude := if parts.length ≥ 2 then (parseNum ((parts.get? 0).getD "")).getD 0 else 0
    longitude := if parts.length ≥ 2 then (parseNum ((parts.get? 1).getD "")).getD 0 else 0
    timestamp := (parseTime item.pubDate).getD 0 }

/-- The per-item normalization loop of the older `pollGDACS`: an item with an
empty `eventid` is skipped (without any warning) before anything is built;
a timestamp parse failure again only warns and the item stays. -/
def normalizeGDACSOld (parseTime : String → Option Int)
    (parseNum : String → Option Rat) :
    List GdacsItem → List Disaster × List String
  | [] => ([], [])
  | item :: rest =>
    let p := normalizeGDACSOld parseTime parseNum rest
    if item.eventID = "" then p
    else
      (gdacsDisasterOld parseTime parseNum item :: p.1,
        if (parseTime item.pubDate).isNone then item.eventID :: p.2 else p.2)

/-- The limit handling of `Handler.getDisasters` (the REST query handler):
`filter.Limit` starts at the default 20, and a supplied `limit` query value
(already through `strconv.Atoi`; `none` covers both an absent parameter and a
parse failure) replaces it only when it is positive and at most 500. -/
def effectiveLimit (limitParam : Option Int) : Int :=
  match limitParam with
  | none => 20
  | some lim => if 0 < lim ∧ lim ≤ 500 then lim else 20

/-- The repository filter `Handler.getDisasters` hands to `ListDisasters`:
optional fields straight from the (already validated) query parameters, the
limit through `effectiveLimit`, offset never set. -/
def restFilter (ty : Option DisasterType) (mm : Option Rat) (since : Option Int)
    (limitParam : Option Int) (al mal : Option AlertLevel) : Filter :=
  { limit := effectiveLimit limitParam
    offset := 0
    since := since
    type := ty
    minMagnitude := mm
    alertLevel := al
    minAlertLevel := mal }

/-- Spec-side reading of the streaming filter: the conjunction of every
predicate set in the request — category equality, magnitude at least the
threshold, exact severity, severity at least the threshold — with the proto
`UNSPECIFIED`/`UNKNOWN` sentinels meaning "not set". -/
def SatisfiesFilter (req : StreamFilter) (d : Disaster) : Prop :=
  (∀ t, req.type = some t → t ≠ DisasterType.unspecified → d.type = t)
  ∧ (∀ m, req.minMagnitude = some m → m ≤ d.magnitude)
  ∧ (∀ a, req.alertLevel = some a → a ≠ AlertLevel.unknown → d.alertLevel = a)
  ∧ (∀ a, req.minAlertLevel = some a → a ≠ AlertLevel.unknown → a ≤ d.alertLevel)

/-- The three rows `TestSQLiteDB_ListDisasters_WithFilters` inserts: an
earthquake of magnitude 6, one of magnitude 4, a flood of magnitude 3. -/
def testRow (id : String) (ty : DisasterType) (mag : Rat) : Disaster :=
  { id := id
    source := "test"
    type := ty
    title := ""
    description := ""
    magnitude := mag
    alertLevel := AlertLevel.unknown
    latitude := 0
    longitude := 0
    timestamp := 0 }

/-- The store of `TestSQLiteDB_ListDisasters_WithFilters`. -/
def filtersTestStore : List Disaster :=
  [testRow "eq1" DisasterType.earthquake 6,
   testRow "eq2" DisasterType.earthquake 4,
   testRow "fl1" DisasterType.flood 3]

/-- A GDACS item whose `pubDate` no parser accepts: the malformed-feed-item
case of the error-handling taxonomy. -/
def badDateItem : GdacsItem :=
  { title := "EQ somewhere"
    description := ""
    pubDate := "not-a-date"
    point := "1 2"
    eventType := "EQ"
    alertLevelText := "green"
    eventID := "123"
    severityText := "Magnitude 6.0M"
    lat := 1
    lon := 2
    severity := 6 }

/-- A timestamp parser that rejects everything (the concrete unparseable
scenario). -/
def rejectAllTimes : String → Option Int := fun _ => none

/-- A numeric parser for the handful of concrete literals the examples use
(stands for `strconv.ParseFloat` on those inputs). -/
def toyParseNum : String → Option Rat := fun s =>
  if s = "6.0" then some 6 else if s = "1" then some 1 else if s = "2" then some 2 else none

/-- A Broadcaster holding exactly one subscriber, handle 1 with an empty
inbox of the code's capacity 100 (the state right after one `Subscribe`). -/
def sampleBroadcaster : Broadcaster :=
  { subscribers := [{ id := 1, inbox := [], capacity := 100 }]
    nextID := 1
    closes := [] }

/-- A Broadcaster with one subscriber that has spare capacity (handle 1) and
one whose inbox is full (handle 2, capacity 1 with one buffered record). -/
def fullAndSpare : Broadcaster :=
  { subscribers :=
      [{ id := 1, inbox := [], capacity := 100 },
       { id := 2, inbox := [testRow "a" DisasterType.flood 1], capacity := 1 }]
    nextID := 2
    closes := [] }

lemma effectiveLimit_pos (p : Option Int) : 0 < effectiveLimit p := by
  cases p with
  | none => norm_num [effectiveLimit]
  | some l =>
    unfold effectiveLimit
    split <;> omega

lemma effectiveLimit_le (p : Option Int) : effectiveLimit p ≤ 500 := by
  cases p with
  | none => norm_num [effectiveLimit]
  | some l =>
    unfold effectiveLimit
    split <;> omega

/-- C9: the effective result cap of a query is 20 when no limit is supplied, a
supplied limit is honored exactly when it is positive and at most 500, and the
number of records the handler requests from (and receives back from) the
repository never exceeds 500. -/
theorem getDisasters_limit_cap :
    effectiveLimit none = 20
    ∧ (∀ l : Int, 0 < l → l ≤ 500 → effectiveLimit (some l) = l)
    ∧ (∀ l : Int, ¬(0 < l ∧ l ≤ 500) → effectiveLimit (some l) = 20)
    ∧ (∀ p : Option Int, effectiveLimit p ≤ 500)
    ∧ (∀ (store : List Disaster) (ty : Option DisasterType) (mm : Option Rat)
        (since : Option Int) (p : Option Int) (al mal : Option AlertLevel),
        (listDisasters store (restFilter ty mm since p al mal)).length ≤ 500) := by
  refine ⟨rfl, ?_, ?_, effectiveLimit_le, ?_⟩
  · intro l h1 h2
    simp [effectiveLimit, h1, h2]
  · intro l h
    simp only [effectiveLimit, if_neg h]
  · intro store ty mm since p al mal
    have hpos : (0:Int) < effectiveLimit p := effectiveLimit_pos p
    have hle : effectiveLimit p ≤ 500 := effectiveLimit_le p
    unfold listDisasters restFilter
    simp only [hpos, if_pos, gt_iff_lt, lt_irrefl, if_neg, if_false]
    have htake := List.length_take_le (effectiveLimit p).toNat
      (sortNewestFirst (store.filter (fun d =>
        (match ty with | some t => d.type == t | none => true)
        && (match since with | some s => decide (s ≤ d.timestamp) | none => true))))
    omega

/-- C9 witness: the cap facts at the concrete inputs 7 (honored) and 900
(rejected, default 20 applies). -/
theorem getDisasters_limit_cap_witness :
    ((0:Int) < 7 ∧ (7:Int) ≤ 500 ∧ effectiveLimit (some 7) = 7)
    ∧ (¬((0:Int) < 900 ∧ (900:Int) ≤ 500) ∧ effectiveLimit (some 900) = 20)
    ∧ (listDisasters filtersTestStore (restFilter none none none (some 7) none none)).length ≤ 500 :=
  ⟨⟨by decide, by decide, getDisasters_limit_cap.2.1 7 (by decide) (by decide)⟩,
   ⟨by decide, getDisasters_limit_cap.2.2.1 900 (by decide)⟩,
   getDisasters_limit_cap.2.2.2.2 filtersTestStore none none none (some 7) none none⟩

lemma any_filter_ne (l : List Subscriber) (id : Nat) :
    (l.filter (fun s => s.id ≠ id)).any (fun s => s.id == id) = false := by
  rw [Bool.eq_false_iff]
  intro h
  obtain ⟨s, hs, hid⟩ := List.any_eq_true.mp h
  have hne := List.of_mem_filter hs
  simp at hne hid
  exact hne hid

/-- C10: unsubscribing an unregistered handle (in particular, unsubscribing
the same handle a second time) leaves the Broadcaster unchanged, the operation
is idempotent, and two consecutive calls close the handle's inbox at most
once. -/
theorem unsubscribe_idempotent (b : Broadcaster) (id : Nat) :
    ((∀ s ∈ b.subscribers, s.id ≠ id) → b.unsubscribe id = b)
    ∧ (b.unsubscribe id).unsubscribe id = b.unsubscribe id
    ∧ ((b.unsubscribe id).unsubscribe id).closes.count id ≤ b.closes.count id + 1 := by
  have hidem : (b.unsubscribe id).unsubscribe id = b.unsubscribe id := by
    by_cases hany : b.subscribers.any (fun s => s.id == id) = true
    · have h1 : b.unsubscribe id =
        { b with
          subscribers := b.subscribers.filter (fun s => s.id ≠ id)
          closes := b.closes ++ [id] } := by
        simp [Broadcaster.unsubscribe, hany]
      rw [h1]
      simp [Broadcaster.unsubscribe, any_filter_ne]
    · have h0 : b.unsubscribe id = b := by
        simp [Broadcaster.unsubscribe, Bool.eq_false_iff.mpr hany]
      rw [h0, h0]
  refine ⟨?_, hidem, ?_⟩
  · intro h
    have hany : b.subscribers.any (fun s => s.id == id) = false := by
      rw [Bool.eq_false_iff]
      intro hc
      obtain ⟨s, hs, hid⟩ := List.any_eq_true.mp hc
      simp at hid
      exact h s hs hid
    simp [Broadcaster.unsubscribe, hany]
  · rw [hidem]
    unfold Broadcaster.unsubscribe
    split
    · simp [List.count_append]
    · omega

/-- C10 witness: a registry holding handle 1, unsubscribing the absent handle
2 and double-unsubscribing handle 1. -/
theorem unsubscribe_idempotent_witness :
    ((∀ s ∈ sampleBroadcaster.subscribers, s.id ≠ 2)
      ∧ sampleBroadcaster.unsubscribe 2 = sampleBroadcaster)
    ∧ (sampleBroadcaster.unsubscribe 1).unsubscribe 1 = sampleBroadcaster.unsubscribe 1 :=
  ⟨⟨by decide, (unsubscribe_idempotent sampleBroadcaster 2).1 (by decide)⟩,
   (unsubscribe_idempotent sampleBroadcaster 1).2.1⟩

lemma markAsSent_count (store : List LedgerRow) (ids : List String) :
    (markAsSent store ids).2 =
      (store.filter (fun r => ids.contains r.id && !r.delivered)).length := by
  induction store with
  | nil => rfl
  | cons r rest ih =>
    by_cases hm : r.id ∈ ids
    · cases hd : r.delivered
      · simp [markAsSent, List.filter_cons, hm, hd, ih]
      · simp [markAsSent, List.filter_cons, hm, hd, ih]
    · simp [markAsSent, List.filter_cons, hm, ih]

lemma markAsSent_idem (store : List LedgerRow) (ids : List String) :
    markAsSent (markAsSent store ids).1 ids = ((markAsSent store ids).1, 0) := by
  induction store with
  | nil => rfl
  | cons r rest ih =>
    by_cases hm : r.id ∈ ids
    · cases hd : r.delivered
      · simp [markAsSent, hm, hd, ih]
      · simp [markAsSent, hm, hd, ih]
    · simp [markAsSent, hm, ih]

lemma markAsSent_unknown (store : List LedgerRow) (ids : List String)
    (h : ∀ r ∈ store, r.id ∉ ids) :
    markAsSent store ids = (store, 0) := by
  induction store with
  | nil => rfl
  | cons r rest ih =>
    have hr : r.id ∉ ids := h r (by simp)
    have hrest := ih (fun r' hr' => h r' (by simp [hr']))
    simp [markAsSent, hr, hrest]

/-- C6: the acknowledgement operation returns exactly the count of ledger rows
whose delivered flag it transitioned false→true; ids matching no row
contribute 0 without error, re-acknowledging is idempotent (the repeated call
transitions nothing and returns 0), and an empty id set yields 0. -/
theorem acknowledge_spec (store : List LedgerRow) (ids : List String) :
    (acknowledgeDisasters store ids).2 =
      (store.filter (fun r => ids.contains r.id && !r.delivered)).length
    ∧ acknowledgeDisasters store [] = (store, 0)
    ∧ acknowledgeDisasters (markAsSent store ids).1 ids = ((markAsSent store ids).1, 0)
    ∧ ((∀ r ∈ store, r.id ∉ ids) → acknowledgeDisasters store ids = (store, 0)) := by
  refine ⟨?_, by simp [acknowledgeDisasters], ?_, ?_⟩
  · cases ids with
    | nil => simp [acknowledgeDisasters]
    | cons i rest => simp [acknowledgeDisasters, markAsSent_count]
  · cases ids with
    | nil => simp [acknowledgeDisasters]
    | cons i rest => simp [acknowledgeDisasters, markAsSent_idem]
  · intro h
    cases ids with
    | nil => simp [acknowledgeDisasters]
    | cons i rest => simp [acknowledgeDisasters, markAsSent_unknown _ _ h]

/-- C6 witness: the ledger of `TestSQLiteDB_MarkAsSent` — three undelivered
rows, acknowledging {sent1, sent2} transitions 2, re-acknowledging them
transitions 0, and an unknown id transitions 0. -/
theorem acknowledge_spec_witness :
    (acknowledgeDisasters
        [⟨"sent1", false⟩, ⟨"sent2", false⟩, ⟨"sent3", false⟩] ["sent1", "sent2"]).2 = 2
    ∧ acknowledgeDisasters
        (markAsSent [⟨"sent1", false⟩, ⟨"sent2", false⟩, ⟨"sent3", false⟩] ["sent1", "sent2"]).1
        ["sent1", "sent2"] =
      ((markAsSent [⟨"sent1", false⟩, ⟨"sent2", false⟩, ⟨"sent3", false⟩] ["sent1", "sent2"]).1, 0)
    ∧ ((∀ r ∈ ([⟨"sent1", false⟩] : List LedgerRow), r.id ∉ (["nonexistent"] : List String))
        ∧ acknowledgeDisasters [⟨"sent1", false⟩] ["nonexistent"] = ([⟨"sent1", false⟩], 0)) :=
  ⟨by have := (acknowledge_spec
        [⟨"sent1", false⟩, ⟨"sent2", false⟩, ⟨"sent3", false⟩] ["sent1", "sent2"]).1
      rw [this]; decide,
   (acknowledge_spec [⟨"sent1", false⟩, ⟨"sent2", false⟩, ⟨"sent3", false⟩] ["sent1", "sent2"]).2.2.1,
   by decide,
   (acknowledge_spec [⟨"sent1", false⟩] ["nonexistent"]).2.2.2 (by decide)⟩

lemma foldl_trySend (ds : List Disaster) (s : Subscriber)
    (h : s.inbox.length + ds.length ≤ s.capacity) :
    ds.foldl trySend s = { s with inbox := s.inbox ++ ds } := by
  induction ds generalizing s with
  | nil => simp
  | cons d rest ih =>
    have hlt : s.inbox.length < s.capacity := by simp at h; omega
    have h1 : trySend s d = { s with inbox := s.inbox ++ [d] } := by
      simp [trySend, hlt]
    rw [List.foldl_cons, h1, ih]
    · simp
    · simp at h ⊢; omega

lemma broadcastAll_subscribers (ds : List Disaster) (b : Broadcaster) :
    (b.broadcastAll ds).subscribers = b.subscribers.map (fun s => ds.foldl trySend s) := by
  induction ds generalizing b with
  | nil => simp [Broadcaster.broadcastAll]
  | cons d rest ih =>
    have hstep : b.broadcastAll (d :: rest) = (b.broadcast d).broadcastAll rest := rfl
    rw [hstep, ih]
    simp only [Broadcaster.broadcast, List.map_map]
    rfl

/-- C4: broadcasting appends the record to every registered inbox with spare
capacity, drops it for each full inbox while leaving that inbox and every
other subscriber untouched (the registry keeps its length and order), and a
subscriber with enough headroom receives a whole published sequence appended
in publish order. `Broadcaster.broadcast` is a total function: it always
returns, no inbox send blocks it. -/
theorem broadcast_spec (b : Broadcaster) (d : Disaster) :
    ((b.broadcast d).subscribers.length = b.subscribers.length)
    ∧ (∀ i (h : i < b.subscribers.length) (h' : i < (b.broadcast d).subscribers.length),
        (b.subscribers[i].inbox.length < b.subscribers[i].capacity →
          (b.broadcast d).subscribers[i] =
            { b.subscribers[i] with inbox := b.subscribers[i].inbox ++ [d] })
        ∧ (¬ b.subscribers[i].inbox.length < b.subscribers[i].capacity →
          (b.broadcast d).subscribers[i] = b.subscribers[i]))
    ∧ (∀ (ds : List Disaster) i (h : i < b.subscribers.length)
        (h' : i < (b.broadcastAll ds).subscribers.length),
        b.subscribers[i].inbox.length + ds.length ≤ b.subscribers[i].capacity →
        (b.broadcastAll ds).subscribers[i] =
          { b.subscribers[i] with inbox := b.subscribers[i].inbox ++ ds }) := by
  refine ⟨by simp [Broadcaster.broadcast], ?_, ?_⟩
  · intro i h h'
    have hmap : (b.broadcast d).subscribers[i] = trySend b.subscribers[i] d := by
      simp [Broadcaster.broadcast]
    constructor
    · intro hlt
      rw [hmap]
      simp only [trySend]
      rw [if_pos hlt]
    · intro hge
      rw [hmap]
      simp only [trySend]
      rw [if_neg hge]
  · intro ds i h h' hcap
    have hmap : (b.broadcastAll ds).subscribers[i] =
        ds.foldl trySend b.subscribers[i] := by
      simp [broadcastAll_subscribers]
    rw [hmap, foldl_trySend ds _ hcap]

/-- C4 witness: one subscriber with room and one with a full inbox; the full
one keeps its single buffered record, the other receives the published
record appended. -/
theorem broadcast_spec_witness :
    ((fullAndSpare.subscribers.get ⟨0, by decide⟩).inbox.length <
        (fullAndSpare.subscribers.get ⟨0, by decide⟩).capacity
      ∧ (fullAndSpare.broadcast (testRow "b" DisasterType.flood 1)).subscribers.get
          ⟨0, by decide⟩ =
        { fullAndSpare.subscribers.get ⟨0, by decide⟩ with
          inbox := (fullAndSpare.subscribers.get ⟨0, by decide⟩).inbox
            ++ [testRow "b" DisasterType.flood 1] })
    ∧ (¬ (fullAndSpare.subscribers.get ⟨1, by decide⟩).inbox.length <
          (fullAndSpare.subscribers.get ⟨1, by decide⟩).capacity
      ∧ (fullAndSpare.broadcast (testRow "b" DisasterType.flood 1)).subscribers.get
          ⟨1, by decide⟩ = fullAndSpare.subscribers.get ⟨1, by decide⟩) :=
  ⟨⟨by decide,
    ((broadcast_spec fullAndSpare (testRow "b" DisasterType.flood 1)).2.1 0
      (by decide) (by decide)).1 (by decide)⟩,
   ⟨by decide,
    ((broadcast_spec fullAndSpare (testRow "b" DisasterType.flood 1)).2.1 1
      (by decide) (by decide)).2 (by decide)⟩⟩

lemma alertLevel_not_lt (a b : AlertLevel) : ¬ a < b ↔ b ≤ a := by
  change ¬ a.toNat < b.toNat ↔ b.toNat ≤ a.toNat
  omega

lemma streamSession_eq_filter (req : StreamFilter) (ds : List Disaster) :
    streamSession req ds = ds.filter (passesFilter req) := by
  induction ds with
  | nil => rfl
  | cons d rest ih =>
    by_cases h : passesFilter req d = true
    · simp [streamSession, List.filter_cons, h, ih]
    · simp [streamSession, List.filter_cons, Bool.eq_false_iff.mpr h, ih]

lemma passesFilter_iff (req : StreamFilter) (d : Disaster) :
    passesFilter req d = true ↔ SatisfiesFilter req d := by
  obtain ⟨ty, mm, al, mal⟩ := req
  simp only [passesFilter, SatisfiesFilter, Bool.and_eq_true]
  constructor
  · rintro ⟨⟨⟨h1, h2⟩, h3⟩, h4⟩
    refine ⟨?_, ?_, ?_, ?_⟩
    · rintro t rfl hne
      simp only [if_pos hne, decide_eq_true_eq] at h1
      exact h1
    · rintro m rfl
      simp only [Bool.not_eq_eq_eq_not, Bool.not_true, decide_eq_false_iff_not, not_lt] at h2
      exact h2
    · rintro a rfl hne
      simp only [if_pos hne, decide_eq_true_eq] at h3
      exact h3
    · rintro a rfl hne
      simp only [if_pos hne, Bool.not_eq_eq_eq_not, Bool.not_true,
        decide_eq_false_iff_not] at h4
      exact (alertLevel_not_lt _ _).mp h4
  · rintro ⟨h1, h2, h3, h4⟩
    refine ⟨⟨⟨?_, ?_⟩, ?_⟩, ?_⟩
    · cases ty with
      | none => rfl
      | some t =>
        by_cases hne : t ≠ DisasterType.unspecified
        · simp only [if_pos hne, decide_eq_true_eq]
          exact h1 t rfl hne
        · simp [if_neg hne]
    · cases mm with
      | none => rfl
      | some m =>
        simp only [Bool.not_eq_eq_eq_not, Bool.not_true, decide_eq_false_iff_not, not_lt]
        exact h2 m rfl
    · cases al with
      | none => rfl
      | some a =>
        by_cases hne : a ≠ AlertLevel.unknown
        · simp only [if_pos hne, decide_eq_true_eq]
          exact h3 a rfl hne
        · simp [if_neg hne]
    · cases mal with
      | none => rfl
      | some a =>
        by_cases hne : a ≠ AlertLevel.unknown
        · simp only [if_pos hne, Bool.not_eq_eq_eq_not, Bool.not_true,
            decide_eq_false_iff_not]
          exact (alertLevel_not_lt _ _).mpr (h4 a rfl hne)
        · simp [if_neg hne]

/-- C2: a streaming session with filter F delivers a record iff the record
came through the inbox and satisfies the conjunction of every predicate set
in F (category equality, magnitude at least, exact severity, severity at
least); a record failing the filter is discarded silently and the session
continues with the remaining records instead of terminating. -/
theorem streamDelivery_spec (req : StreamFilter) (ds : List Disaster) (d : Disaster) :
    (d ∈ streamSession req ds ↔ d ∈ ds ∧ SatisfiesFilter req d)
    ∧ (passesFilter req d = false → streamSession req (d :: ds) = streamSession req ds) := by
  constructor
  · rw [streamSession_eq_filter, List.mem_filter, passesFilter_iff]
  · intro h
    simp [streamSession, h]

/-- C2 witness: a min-magnitude-5 filter discards a magnitude-1 flood and the
session carries on; the remaining magnitude-6 record is still delivered. -/
theorem streamDelivery_spec_witness :
    (passesFilter { minMagnitude := some 5 } (testRow "x" DisasterType.flood 1) = false
      ∧ streamSession { minMagnitude := some 5 }
          (testRow "x" DisasterType.flood 1 :: [testRow "y" DisasterType.flood 6]) =
        streamSession { minMagnitude := some 5 } [testRow "y" DisasterType.flood 6])
    ∧ streamSession { minMagnitude := some 5 } [testRow "y" DisasterType.flood 6] =
        [testRow "y" DisasterType.flood 6] :=
  ⟨⟨by decide,
    (streamDelivery_spec { minMagnitude := some 5 } [testRow "y" DisasterType.flood 6]
      (testRow "x" DisasterType.flood 1)).2 (by decide)⟩,
   by decide⟩

lemma orange_le_iff (l : AlertLevel) :
    AlertLevel.orange ≤ l ↔ l = AlertLevel.orange ∨ l = AlertLevel.red := by
  cases l <;> decide

lemma shouldBroadcast_iff (d : Disaster) :
    shouldBroadcast d = true ↔
      ((d.type = DisasterType.earthquake ∧ (5 : Rat) ≤ d.magnitude)
        ∨ (d.type ≠ DisasterType.earthquake ∧ AlertLevel.orange ≤ d.alertLevel)) := by
  unfold shouldBroadcast
  by_cases h : d.type = DisasterType.earthquake
  · simp [h]
  · simp [h, orange_le_iff]

/-- C3: a record absent from the store is persisted by the processor, and it
is published to the Broadcaster iff the broadcast-worthiness policy holds —
it is an earthquake of magnitude at least 5.0, or of any other category with
severity at least orange; a persisted record failing the policy is never
broadcast. -/
theorem broadcastPolicy_spec (st : PipelineState) (d : Disaster)
    (habs : existsInStore st.store d.id = false) (hnb : d ∉ st.broadcasts) :
    d ∈ (processJob st d).store
    ∧ (d ∈ (processJob st d).broadcasts ↔
        ((d.type = DisasterType.earthquake ∧ (5 : Rat) ≤ d.magnitude)
          ∨ (d.type ≠ DisasterType.earthquake ∧ AlertLevel.orange ≤ d.alertLevel))) := by
  have hproc : processJob st d =
      { store := st.store ++ [d]
        broadcasts := if shouldBroadcast d then st.broadcasts ++ [d] else st.broadcasts } := by
    simp [processJob, habs]
  rw [hproc]
  constructor
  · simp
  · rw [← shouldBroadcast_iff]
    by_cases hb : shouldBroadcast d = true
    · simp [hb]
    · simp [Bool.eq_false_iff.mpr hb, hnb]

/-- C3 witness: on an empty pipeline state, a magnitude-6 earthquake is
persisted and its policy test holds, so it is broadcast. -/
theorem broadcastPolicy_spec_witness :
    (existsInStore (⟨[], []⟩ : PipelineState).store (testRow "eq" DisasterType.earthquake 6).id = false
      ∧ testRow "eq" DisasterType.earthquake 6 ∉ (⟨[], []⟩ : PipelineState).broadcasts)
    ∧ testRow "eq" DisasterType.earthquake 6
        ∈ (processJob ⟨[], []⟩ (testRow "eq" DisasterType.earthquake 6)).store
    ∧ testRow "eq" DisasterType.earthquake 6
        ∈ (processJob ⟨[], []⟩ (testRow "eq" DisasterType.earthquake 6)).broadcasts :=
  ⟨⟨by decide, by decide⟩,
   (broadcastPolicy_spec ⟨[], []⟩ (testRow "eq" DisasterType.earthquake 6)
      (by decide) (by decide)).1,
   (broadcastPolicy_spec ⟨[], []⟩ (testRow "eq" DisasterType.earthquake 6)
      (by decide) (by decide)).2.mpr (Or.inl ⟨rfl, by decide⟩)⟩

lemma existsInStore_false_iff (store : List Disaster) (id : String) :
    existsInStore store id = false ↔ ∀ r ∈ store, r.id ≠ id := by
  unfold existsInStore
  rw [Bool.eq_false_iff]
  simp [List.any_eq_true]

/-- C1: pushing two records with the same id through the worker processor
results in exactly one persisted record with that id — the processor's
existence re-check makes the second occurrence a no-op, so nothing is
persisted again and no second broadcast of that id is published. -/
theorem pipeline_idempotent (st : PipelineState) (d1 d2 : Disaster)
    (hid : d2.id = d1.id) (habs : existsInStore st.store d1.id = false) :
    ((processJob (processJob st d1) d2).store.filter (fun r => r.id == d1.id)).length = 1
    ∧ processJob (processJob st d1) d2 = processJob st d1 := by
  have h1 : processJob st d1 =
      { store := st.store ++ [d1]
        broadcasts := if shouldBroadcast d1 then st.broadcasts ++ [d1] else st.broadcasts } := by
    simp [processJob, habs]
  have hex : existsInStore (st.store ++ [d1]) d2.id = true := by
    simp [existsInStore, hid]
  have h2 : processJob (processJob st d1) d2 = processJob st d1 := by
    rw [h1]
    simp [processJob, existsInStore, hid]
  refine ⟨?_, h2⟩
  rw [h2, h1]
  have hnil : st.store.filter (fun r => r.id == d1.id) = [] := by
    rw [List.filter_eq_nil_iff]
    intro r hr
    simp [(existsInStore_false_iff st.store d1.id).mp habs r hr]
  simp [List.filter_append, hnil]

/-- C1 witness: the same magnitude-6 earthquake record submitted twice to an
empty pipeline is persisted exactly once and the second pass changes
nothing. -/
theorem pipeline_idempotent_witness :
    ((testRow "eq" DisasterType.earthquake 6).id = (testRow "eq" DisasterType.earthquake 6).id
      ∧ existsInStore (⟨[], []⟩ : PipelineState).store (testRow "eq" DisasterType.earthquake 6).id = false)
    ∧ ((processJob (processJob ⟨[], []⟩ (testRow "eq" DisasterType.earthquake 6))
          (testRow "eq" DisasterType.earthquake 6)).store.filter
        (fun r => r.id == (testRow "eq" DisasterType.earthquake 6).id)).length = 1 :=
  ⟨⟨rfl, by decide⟩,
   (pipeline_idempotent ⟨[], []⟩ (testRow "eq" DisasterType.earthquake 6)
      (testRow "eq" DisasterType.earthquake 6) rfl (by decide)).1⟩

lemma pollGo_fetch_true (fetch shutdown : Nat → Bool) (a n : Nat)
    (hf : fetch a = true) :
    pollGo fetch shutdown a (n + 1) =
      { attempts := 1, waits := [], success := true, aborted := false } := by
  simp [pollGo, hf]

lemma pollGo_exhausted (fetch shutdown : Nat → Bool) (a n : Nat)
    (hf : fetch a = false) (h4 : ¬ a < 4) :
    pollGo fetch shutdown a (n + 1) =
      { attempts := 1, waits := [], success := false, aborted := false } := by
  simp [pollGo, hf, h4]

lemma pollGo_shutdown (fetch shutdown : Nat → Bool) (a n : Nat)
    (hf : fetch a = false) (h4 : a < 4) (hs : shutdown a = true) :
    pollGo fetch shutdown a (n + 1) =
      { attempts := 1, waits := [2 ^ a], success := false, aborted := true } := by
  simp [pollGo, hf, h4, hs]

lemma pollGo_retry (fetch shutdown : Nat → Bool) (a n : Nat)
    (hf : fetch a = false) (h4 : a < 4) (hs : shutdown a = false) :
    pollGo fetch shutdown a (n + 1) =
      { attempts := (pollGo fetch shutdown (a + 1) n).attempts + 1
        waits := 2 ^ a :: (pollGo fetch shutdown (a + 1) n).waits
        success := (pollGo fetch shutdown (a + 1) n).success
        aborted := (pollGo fetch shutdown (a + 1) n).aborted } := by
  simp [pollGo, hf, h4, hs]

lemma pollGo_attempts_le (fetch shutdown : Nat → Bool) :
    ∀ fuel a, (pollGo fetch shutdown a fuel).attempts ≤ fuel := by
  intro fuel
  induction fuel with
  | zero => intro a; simp [pollGo]
  | succ n ih =>
    intro a
    cases hf : fetch a
    · by_cases h4 : a < 4
      · cases hs : shutdown a
        · rw [pollGo_retry fetch shutdown a n hf h4 hs]
          have := ih (a + 1)
          simp
          omega
        · rw [pollGo_shutdown fetch shutdown a n hf h4 hs]
          simp
      · rw [pollGo_exhausted fetch shutdown a n hf h4]
        simp
    · rw [pollGo_fetch_true fetch shutdown a n hf]
      simp

lemma pollGo_waits_get? (fetch shutdown : Nat → Bool) :
    ∀ fuel a i, i < (pollGo fetch shutdown a fuel).waits.length →
      (pollGo fetch shutdown a fuel).waits.get? i = some (2 ^ (a + i)) := by
  intro fuel
  induction fuel with
  | zero => intro a i h; simp [pollGo] at h
  | succ n ih =>
    intro a i h
    cases hf : fetch a
    · by_cases h4 : a < 4
      · cases hs : shutdown a
        · rw [pollGo_retry fetch shutdown a n hf h4 hs] at h ⊢
          match i with
          | 0 => simp
          | j + 1 =>
            simp only [List.get?_cons_succ]
            have hj : j < (pollGo fetch shutdown (a + 1) n).waits.length := by
              simpa using h
            rw [ih (a + 1) j hj]
            have harith : a + 1 + j = a + (j + 1) := by omega
            rw [harith]
        · rw [pollGo_shutdown fetch shutdown a n hf h4 hs] at h ⊢
          match i with
          | 0 => simp
          | j + 1 => simp at h
      · rw [pollGo_exhausted fetch shutdown a n hf h4] at h
        simp at h
    · rw [pollGo_fetch_true fetch shutdown a n hf] at h
      simp at h

lemma pollGo_aborted_success (fetch shutdown : Nat → Bool) :
    ∀ fuel a, (pollGo fetch shutdown a fuel).aborted = true →
      (pollGo fetch shutdown a fuel).success = false := by
  intro fuel
  induction fuel with
  | zero => intro a _; simp [pollGo]
  | succ n ih =>
    intro a
    cases hf : fetch a
    · by_cases h4 : a < 4
      · cases hs : shutdown a
        · rw [pollGo_retry fetch shutdown a n hf h4 hs]
          exact ih (a + 1)
        · rw [pollGo_shutdown fetch shutdown a n hf h4 hs]
          simp
      · rw [pollGo_exhausted fetch shutdown a n hf h4]
        simp
    · rw [pollGo_fetch_true fetch shutdown a n hf]
      simp

/-- C5: on one poll cycle the retry loop performs at most 5 fetch attempts;
the backoff wait entered after failed attempt k is 2^k seconds (so 1, 2, 4, 8
and nondecreasing from each attempt to the next); a shutdown signal during a
backoff wait aborts the cycle with no success; and a cycle with no successful
fetch (abandoned or exhausted) submits no records at all. -/
theorem pollRetry_spec (fetch shutdown : Nat → Bool)
    (fetched store : List Disaster) :
    (pollRetry fetch shutdown).attempts ≤ 5
    ∧ (∀ i (h : i < (pollRetry fetch shutdown).waits.length),
        (pollRetry fetch shutdown).waits.get ⟨i, h⟩ = 2 ^ i)
    ∧ (∀ i j (hi : i < (pollRetry fetch shutdown).waits.length)
        (hj : j < (pollRetry fetch shutdown).waits.length), i ≤ j →
        (pollRetry fetch shutdown).waits.get ⟨i, hi⟩ ≤
          (pollRetry fetch shutdown).waits.get ⟨j, hj⟩)
    ∧ ((pollRetry fetch shutdown).aborted = true →
        (pollRetry fetch shutdown).success = false)
    ∧ ((pollRetry fetch shutdown).success = false →
        pollSubmits fetch shutdown fetched store = []) := by
  have hget : ∀ i (h : i < (pollRetry fetch shutdown).waits.length),
      (pollRetry fetch shutdown).waits.get ⟨i, h⟩ = 2 ^ i := by
    intro i h
    have h' : i < (pollGo fetch shutdown 0 5).waits.length := h
    have h5 := pollGo_waits_get? fetch shutdown 5 0 i h'
    rw [List.get?_eq_get h'] at h5
    have hsome := Option.some.inj h5
    simpa using hsome
  refine ⟨pollGo_attempts_le fetch shutdown 5 0, hget, ?_, ?_, ?_⟩
  · intro i j hi hj hij
    rw [hget i hi, hget j hj]
    exact Nat.pow_le_pow_right (by omega) hij
  · exact pollGo_aborted_success fetch shutdown 5 0
  · intro h
    have h' : (pollGo fetch shutdown 0 5).success = false := h
    simp only [pollSubmits, pollRetry, h']
    simp

/-- C5 witness: with every fetch failing and no shutdown, the loop runs all 5
attempts, waits 1, 2, 4, 8 (nondecreasing), ends unsuccessfully and submits
nothing. -/
theorem pollRetry_spec_witness :
    ((pollRetry (fun _ => false) (fun _ => false)).attempts ≤ 5
      ∧ (pollRetry (fun _ => false) (fun _ => false)).waits = [1, 2, 4, 8])
    ∧ (pollRetry (fun _ => false) (fun _ => false)).waits.get ⟨1, by decide⟩ = 2 ^ 1
    ∧ (pollRetry (fun _ => false) (fun _ => false)).waits.get ⟨0, by decide⟩ ≤
        (pollRetry (fun _ => false) (fun _ => false)).waits.get ⟨3, by decide⟩
    ∧ ((pollRetry (fun _ => false) (fun _ => false)).success = false
      ∧ pollSubmits (fun _ => false) (fun _ => false) [testRow "a" DisasterType.flood 1] [] = []) :=
  ⟨⟨(pollRetry_spec (fun _ => false) (fun _ => false) [] []).1, by decide⟩,
   (pollRetry_spec (fun _ => false) (fun _ => false) [] []).2.1 1 (by decide),
   (pollRetry_spec (fun _ => false) (fun _ => false) [] []).2.2.1 0 3
     (by decide) (by decide) (by decide),
   ⟨by decide,
    (pollRetry_spec (fun _ => false) (fun _ => false)
      [testRow "a" DisasterType.flood 1] []).2.2.2.2 (by decide)⟩⟩

/-- C7 (evidence of the divergence): on the very store its own test
`TestSQLiteDB_ListDisasters_WithFilters` builds, `ListDisasters` with
MinMagnitude 5 returns all three rows — including the magnitude-4 earthquake
below the threshold — because the query builder never reads the
`MinMagnitude`, `AlertLevel` or `MinAlertLevel` filter fields; the test
demands exactly one row. -/
theorem listDisasters_minMagnitude_ignored :
    (listDisasters filtersTestStore { minMagnitude := some 5 }).length = 3
    ∧ testRow "eq2" DisasterType.earthquake 4
        ∈ listDisasters filtersTestStore { minMagnitude := some 5 }
    ∧ (testRow "eq2" DisasterType.earthquake 4).magnitude < 5
    ∧ (listDisasters filtersTestStore { alertLevel := some AlertLevel.orange }).length = 3 := by
  exact ⟨by decide, by decide, by decide, by decide⟩

/-- C8 counterexample: an item whose `pubDate` no parser accepts is NOT
skipped by `pollGDACS` — it is normalized (with the zero timestamp) and only
a warning is recorded, contradicting the claim that a malformed item is
excluded from the normalized records. -/
theorem gdacs_malformed_item_included :
    rejectAllTimes badDateItem.pubDate = none
    ∧ (normalizeGDACS rejectAllTimes [badDateItem]).1 =
        [gdacsDisaster rejectAllTimes badDateItem]
    ∧ (normalizeGDACS rejectAllTimes [badDateItem]).2 = ["123"] :=
  ⟨rfl, rfl, rfl⟩

/-- C8 (amended): `pollGDACS` normalizes every item of the batch — an item
with an unparseable timestamp is logged with a warning but still included,
carrying the zero timestamp; only the older string-era `pollGDACS` skips
items, namely exactly those with an empty `eventid` (silently, before any
warning), and every other item of the batch is still processed. -/
theorem normalizeGDACS_amended (parseTime : String → Option Int)
    (parseNum : String → Option Rat) (items : List GdacsItem) :
    (normalizeGDACS parseTime items).1 = items.map (gdacsDisaster parseTime)
    ∧ (normalizeGDACS parseTime items).2 =
        (items.filter (fun it => (parseTime it.pubDate).isNone)).map (fun it => it.eventID)
    ∧ (normalizeGDACSOld parseTime parseNum items).1 =
        (items.filter (fun it => it.eventID ≠ "")).map (gdacsDisasterOld parseTime parseNum)
    ∧ (∀ it : GdacsItem, parseTime it.pubDate = none →
        (gdacsDisaster parseTime it).timestamp = 0) := by
  refine ⟨?_, ?_, ?_, ?_⟩
  · induction items with
    | nil => rfl
    | cons it rest ih => simp [normalizeGDACS, ih]
  · induction items with
    | nil => rfl
    | cons it rest ih =>
      cases hp : parseTime it.pubDate with
      | none => simp [normalizeGDACS, List.filter_cons, hp, ih]
      | some t => simp [normalizeGDACS, List.filter_cons, hp, ih]
  · induction items with
    | nil => rfl
    | cons it rest ih =>
      by_cases h : it.eventID = ""
      · simp [normalizeGDACSOld, List.filter_cons, h, ih]
      · simp [normalizeGDACSOld, List.filter_cons, h, ih]
  · intro it h
    simp [gdacsDisaster, h]

/-- C8 witness: the concrete unparseable-timestamp item keeps the zero
timestamp, and an empty-eventid item is dropped by the older normalizer while
the rest of its batch survives. -/
theorem normalizeGDACS_amended_witness :
    (rejectAllTimes badDateItem.pubDate = none
      ∧ (gdacsDisaster rejectAllTimes badDateItem).timestamp = 0)
    ∧ (normalizeGDACSOld rejectAllTimes toyParseNum
        [{ badDateItem with eventID := "" }, badDateItem]).1 =
      [gdacsDisasterOld rejectAllTimes toyParseNum badDateItem] :=
  ⟨⟨rfl, (normalizeGDACS_amended rejectAllTimes toyParseNum [badDateItem]).2.2.2
      badDateItem rfl⟩,
   by
    have h := (normalizeGDACS_amended rejectAllTimes toyParseNum
      [{ badDateItem with eventID := "" }, badDateItem]).2.2.1
    rw [h]
    rfl⟩

end DisasterAlerts
